import Mathlib

/-!
Verification of the work-update reminder workflow (src/email_slack.py).

The program is a LangGraph workflow with three stages: an email update check,
a time check, and a conditional reminder dispatch (Slack before 21:00, email
at or after 21:00).  This file gives a shallow embedding of the workflow's
data model (`WorkUpdateState`), its stage functions, and the graph wiring,
and proves the specified properties about them.

External collaborators (the Gmail-backed agent executor and the Slack web
client) are modelled by an environment `Env` supplying, for each instruction,
the stream of events the agent emits and the outcome of each Slack post.
LangGraph semantics relevant to the source are embedded explicitly:
  * `update_received` and `reminder_sent` are declared with an
    `operator.or_` reducer, so every stage's returned value is OR-merged
    into the running channel value;
  * the reminder subgraph declares both an unconditional edge
    `START -> send_slack_reminder` (line 132) and a conditional entry point
    (lines 133-137); in LangGraph both fire, which `reminderStage` models;
  * `EmailAgent.process_query` streams with `stream_mode="values"`, whose
    events are the accumulated message list after each step, the first event
    echoing the input.
-/

namespace EmailSlack

/-- A response message produced by the agent executor; the workflow only ever
reads its `content` string (`result.content` in src/email_slack.py). -/
structure Message where
  content : String
deriving DecidableEq, Repr

/-- One event of the agent executor's values-mode stream: the accumulated,
nonempty message list (head plus rest), mirroring `event["messages"]`. -/
abbrev Snap : Type := Message × List Message

/-- Last element of a nonempty list given as head plus tail; models the
Python indexing `xs[-1]` on a nonempty list. -/
def lastD (h : α) : List α → α
  | [] => h
  | x :: xs => lastD x xs

/-- The message list of a stream event. -/
def snapList (e : Snap) : List Message := e.1 :: e.2

/-- The last message of a stream event, `event["messages"][-1]`. -/
def snapLast (e : Snap) : Message := lastD e.1 e.2

/-- `EmailAgent.process_query` (lines 44-63): for each streamed event it
appends `event["messages"][-1]` to `extracted_data` and returns that list.
The stream itself is produced by the external agent and supplied as input. -/
def process_query (events : List Snap) : List Message := events.map snapLast

/-- Containment test used to model Python `in`: does the first list occur at
the head of the second? -/
def beginsWith [BEq α] : List α → List α → Bool
  | [], _ => true
  | _ :: _, [] => false
  | n :: ns, h :: hs => n == h && beginsWith ns hs

/-- Does the first list occur contiguously anywhere in the second? -/
def containsSeq [BEq α] : List α → List α → Bool
  | n, [] => beginsWith n []
  | n, h :: hs => beginsWith n (h :: hs) || containsSeq n hs

/-- Python substring test `needle in hay`. -/
def pyIn (needle hay : String) : Bool := containsSeq needle.data hay.data

/-- Python `s.lower()`, character-wise. -/
def lowerStr (s : String) : String := String.mk (s.data.map Char.toLower)

/-- The scan `any(marker in result.content.lower() for result in results)`
used by `check_email_update` and `send_email_reminder`. -/
def hasMarker (marker : String) (results : List Message) : Bool :=
  results.any fun r => pyIn marker (lowerStr r.content)

/-- Wall-clock timestamp.  The workflow only ever consumes
`current_time.time() < datetime.time(21, 0)`, so the embedding records the
time of day in minutes since midnight. -/
structure PyDateTime where
  tod : Nat
deriving DecidableEq, Repr

/-- `datetime.time(21, 0)` as minutes since midnight. -/
def ninePM : Nat := 21 * 60

/-- Outcome of the Slack client's `chat_postMessage` for a given text:
accepted by the remote service, or a `SlackApiError` (the only exception the
source handles, lines 83-91). -/
inductive SlackOutcome
  | ok
  | apiError (e : String)
deriving DecidableEq, Repr

/-- The external world a run interacts with: the agent executor's event
stream for each instruction, the Slack delivery outcome for each text, and
the two timestamps read by `datetime.datetime.now()` (once in `run_workflow`
at line 251, once in `check_time` at line 187). -/
structure Env where
  emailStream : String → List Snap
  slack : String → SlackOutcome
  initNow : PyDateTime
  checkNow : PyDateTime

/-- `WorkUpdateState` (lines 95-102) minus the two agent handles, which are
opaque objects never branched on.  In the source, `update_received` and
`reminder_sent` are annotated with an `operator.or_` reducer. -/
structure WorkUpdateState where
  user_email : String
  update_received : Bool
  current_time : PyDateTime
  reminder_sent : Bool
  slack_message_sent : Bool
deriving DecidableEq, Repr

/-- The address hard-coded in `run_workflow`'s initial state (line 249). -/
def hardEmail : String := "jhananinallasamy1234@gmail.com"

/-- The instruction built by `check_email_update` (line 170). -/
def updateQuery (u : String) : String :=
  "Check if " ++ u ++ " has sent a work update today"

/-- The instruction built by `send_email_reminder` (line 215). -/
def reminderQuery (u : String) : String :=
  "Send an email to " ++ u ++ " reminding them to send their work update"

/-- The fixed reminder text built by `send_slack_reminder` (line 200). -/
def slackText (u : String) : String :=
  "Reminder: Please send your work update via email to " ++ u

/-- Marker phrase scanned for by `check_email_update` (line 174). -/
def updateMarker : String := "work update found"

/-- Marker phrase scanned for by `send_email_reminder` (line 218). -/
def sentMarker : String := "email sent"

/-- `WorkUpdateWorkflow.check_email_update` (lines 165-180) composed with the
`operator.or_` reducer on the `update_received` channel: the node computes
`any('work update found' in result.content.lower() for result in results)`
and the channel merges this with OR into the running value. -/
def check_email_update (env : Env) (s : WorkUpdateState) : WorkUpdateState :=
  let results := process_query (env.emailStream (updateQuery s.user_email))
  { s with update_received := s.update_received || hasMarker updateMarker results }

/-- `WorkUpdateWorkflow.check_time` (lines 182-193): records `now()` into
`current_time` (a plain channel, overwritten). -/
def check_time (env : Env) (s : WorkUpdateState) : WorkUpdateState :=
  { s with current_time := env.checkNow }

/-- `SlackAgent.send_slack_message` (lines 73-91): returns `true` when the
remote service accepts the post and catches `SlackApiError`, printing it and
returning `false`.  The embedding is a total Bool-valued function: the
delivery-layer error is never raised to the caller. -/
def send_slack_message (env : Env) (message : String) : Bool :=
  match env.slack message with
  | SlackOutcome.ok => true
  | SlackOutcome.apiError _ => false

/-- `WorkUpdateWorkflow.send_slack_reminder` (lines 195-208) composed with
the channel semantics: `slack_message_sent` (no reducer) is overwritten with
the send result and `reminder_sent` is OR-merged with it. -/
def send_slack_reminder (env : Env) (s : WorkUpdateState) : WorkUpdateState :=
  let sent := send_slack_message env (slackText s.user_email)
  { s with slack_message_sent := sent, reminder_sent := s.reminder_sent || sent }

/-- `WorkUpdateWorkflow.send_email_reminder` (lines 210-224) composed with
the channel semantics: `reminder_sent` is OR-merged with the scan for the
`'email sent'` marker in the collaborator's response. -/
def send_email_reminder (env : Env) (s : WorkUpdateState) : WorkUpdateState :=
  let results := process_query (env.emailStream (reminderQuery s.user_email))
  { s with reminder_sent := s.reminder_sent || hasMarker sentMarker results }

/-- The two nodes of the reminder subgraph. -/
inductive RNode
  | slack
  | email
deriving DecidableEq, Repr

/-- The conditional entry point of the reminder subgraph (lines 133-137):
`send_slack_reminder` when no update was received and the recorded time of
day is strictly before 21:00, otherwise `send_email_reminder`. -/
def reminderBranch (s : WorkUpdateState) : RNode :=
  if s.update_received = false ∧ s.current_time.tod < ninePM then RNode.slack
  else RNode.email

/-- Source locations that evaluate `datetime.datetime.now()` into
`current_time`: the initial state built in `run_workflow` (line 251) and the
`check_time` node (line 187). -/
inductive TimeSrc
  | init
  | timeCheck
deriving DecidableEq, Repr

/-- Observable events of one run: instructions issued to the Mail Query
Collaborator, texts posted through the Notification Sender, writes of a fresh
timestamp into `current_time`, and the branch decision taken after
`time_check` (`true` means the reminder stage is entered). -/
inductive Event
  | emailQuery (instr : String)
  | slackPost (text : String)
  | setCurrentTime (src : TimeSrc)
  | branchDecision (toReminder : Bool)
deriving DecidableEq, Repr

/-- Is this event a write of `current_time`? -/
def isTimeWrite : Event → Bool
  | Event.setCurrentTime _ => true
  | _ => false

/-- The reminder subgraph run (`run_reminder_subgraph`).  The compiled graph
has BOTH an unconditional edge `START -> send_slack_reminder` (line 132) AND
a conditional entry point (lines 133-137); in LangGraph the two coexist, so
`send_slack_reminder` is triggered on every invocation.  When the branch
selects `send_slack_reminder` the node is triggered twice but runs once.
When the branch selects `send_email_reminder`, both nodes run in the same
superstep; both return the full state, so the channels without a reducer
(`user_email`, `current_time`, `slack_message_sent`, the agent handles)
receive two writes in one step and the invoke raises `InvalidUpdateError`
after the nodes — and their collaborator calls — have executed.  The aborted
run is modelled as `none`. -/
def reminderStage (env : Env) (s : WorkUpdateState) :
    List Event × Option WorkUpdateState :=
  if reminderBranch s = RNode.slack then
    ([Event.slackPost (slackText s.user_email)], some (send_slack_reminder env s))
  else
    ([Event.slackPost (slackText s.user_email),
      Event.emailQuery (reminderQuery s.user_email)], none)

/-- Outcome of one run: the trace of observable events and the final state
(`none` when the run aborts with an exception). -/
structure RunResult where
  trace : List Event
  final : Option WorkUpdateState
deriving DecidableEq, Repr

/-- The initial state built inside `run_workflow` (lines 248-256): the
hard-coded `user_email`, and `current_time` already set to `now()` here. -/
def initialState (env : Env) : WorkUpdateState :=
  { user_email := hardEmail,
    update_received := false,
    current_time := env.initNow,
    reminder_sent := false,
    slack_message_sent := false }

/-- The state reached after the `email_update_check` and `time_check` stages
of a run: `check_time` applied after `check_email_update`, starting from the
initial state of `run_workflow`. -/
def s2Of (env : Env) : WorkUpdateState :=
  check_time env (check_email_update env (initialState env))

/-- One full run.  `main` builds `WorkUpdateWorkflow(user_email)` — the
constructor never stores its argument — and calls `run_workflow`, which
starts from `initialState`; `_ctorArg` models the (unused) constructor
argument.  The main graph is `START -> email_update_check -> time_check`,
then the conditional edge (lines 155-158) enters `send_reminder` exactly when
`update_received` is false, else goes to `END`. -/
def run_workflow (env : Env) (_ctorArg : String) : RunResult :=
  let s2 := s2Of env
  let head := [Event.setCurrentTime TimeSrc.init,
    Event.emailQuery (updateQuery (initialState env).user_email),
    Event.setCurrentTime TimeSrc.timeCheck]
  if s2.update_received then
    { trace := head ++ [Event.branchDecision false], final := some s2 }
  else
    let r := reminderStage env s2
    { trace := head ++ Event.branchDecision true :: r.1, final := r.2 }

/-- Identifiers for the four stage node functions. -/
inductive NodeId
  | checkEmailUpdate
  | checkTime
  | slackReminder
  | emailReminder
deriving DecidableEq, Repr

/-- The effective state transition of each node function, channel merge
included. -/
def applyStage (env : Env) : NodeId → WorkUpdateState → WorkUpdateState
  | NodeId.checkEmailUpdate, s => check_email_update env s
  | NodeId.checkTime, s => check_time env s
  | NodeId.slackReminder, s => send_slack_reminder env s
  | NodeId.emailReminder, s => send_email_reminder env s

/-- Run an arbitrary sequence of stage transitions from a state. -/
def runStages (env : Env) (ns : List NodeId) (s : WorkUpdateState) : WorkUpdateState :=
  ns.foldl (fun t n => applyStage env n t) s

/-- Append one message to a stream event's accumulated list. -/
def appendMsg (e : Snap) (m : Message) : Snap := (e.1, e.2 ++ [m])

/-- The values-mode stream generated from an initial (echoed input) event by
steps that each append exactly one message. -/
def streamOf (e : Snap) : List Message → List Snap
  | [] => [e]
  | m :: ms => e :: streamOf (appendMsg e m) ms

/-- The messages the underlying agent produced during a stream: everything in
the final event's accumulated list beyond the echoed input event. -/
def agentProduced (events : List Snap) : List Message :=
  match events with
  | [] => []
  | e :: rest => (snapList (lastD e rest)).drop (snapList e).length

/-- A values-mode stream is well formed when each event's message list is a
proper extension of the previous event's list. -/
def wellFormedStream : List Snap → Bool
  | [] => true
  | [_] => true
  | e :: e2 :: rest =>
    (beginsWith (snapList e) (snapList e2) &&
      decide ((snapList e).length < (snapList e2).length)) &&
    wellFormedStream (e2 :: rest)

/-- Environment where the agent returns no messages and Slack accepts every
post; the update check finds nothing and the time check reads 10:00. -/
def env0 : Env :=
  { emailStream := fun _ => [],
    slack := fun _ => SlackOutcome.ok,
    initNow := { tod := 540 },
    checkNow := { tod := 600 } }

/-- Like `env0` but the time check reads 21:30 (after the cutoff). -/
def envLate : Env :=
  { emailStream := fun _ => [],
    slack := fun _ => SlackOutcome.ok,
    initNow := { tod := 1280 },
    checkNow := { tod := 1290 } }

/-- Environment where every agent query returns one message whose content
contains the update marker (in different letter case). -/
def envFound : Env :=
  { emailStream := fun q =>
      [({ content := q }, [{ content := "Yes: WORK UPDATE FOUND for today" }])],
    slack := fun _ => SlackOutcome.ok,
    initNow := { tod := 540 },
    checkNow := { tod := 600 } }

/-- Environment where the agent returns no messages and every Slack post
fails with a `SlackApiError`; the time check reads 10:00. -/
def envErr : Env :=
  { emailStream := fun _ => [],
    slack := fun _ => SlackOutcome.apiError "channel_not_found",
    initNow := { tod := 540 },
    checkNow := { tod := 600 } }

/-- Environment where every agent query returns one message containing the
`'email sent'` marker (in different letter case). -/
def envSent : Env :=
  { emailStream := fun q =>
      [({ content := q }, [{ content := "The Email Sent successfully" }])],
    slack := fun _ => SlackOutcome.ok,
    initNow := { tod := 1280 },
    checkNow := { tod := 1290 } }

/-- A state in which both monotonic flags are already true. -/
def sTrue : WorkUpdateState :=
  { user_email := "a@x.com",
    update_received := true,
    current_time := { tod := 0 },
    reminder_sent := true,
    slack_message_sent := false }

/-- The echoed input message of the concrete stream below. -/
def msgU : Message := { content := "check my inbox for updates" }

/-- An agent chat message of the concrete stream below. -/
def msgA : Message := { content := "calling the email search tool" }

/-- First of two tool messages appended in one step. -/
def msgT1 : Message := { content := "tool result one" }

/-- Second of two tool messages appended in one step. -/
def msgT2 : Message := { content := "tool result two" }

/-- A well-formed values-mode stream whose second step appends two messages
at once (an agent step followed by a two-tool-call step). -/
def c9stream : List Snap :=
  [(msgU, []), (msgU, [msgA]), (msgU, [msgA, msgT1, msgT2])]

/-- The events any run can emit: every instruction or reminder text mentions
the hard-coded address. -/
def allowedEvent (e : Event) : Bool :=
  [Event.setCurrentTime TimeSrc.init,
    Event.emailQuery (updateQuery hardEmail),
    Event.setCurrentTime TimeSrc.timeCheck,
    Event.branchDecision false,
    Event.branchDecision true,
    Event.slackPost (slackText hardEmail),
    Event.emailQuery (reminderQuery hardEmail)].contains e

theorem s2Of_update_received (env : Env) :
    (s2Of env).update_received
      = (check_email_update env (initialState env)).update_received := rfl

theorem s2Of_current_time (env : Env) : (s2Of env).current_time = env.checkNow := rfl

theorem s2Of_user_email (env : Env) : (s2Of env).user_email = hardEmail := rfl

theorem s2Of_reminder_sent (env : Env) : (s2Of env).reminder_sent = false := rfl

theorem s2Of_slack_sent (env : Env) : (s2Of env).slack_message_sent = false := rfl

theorem run_workflow_update_true (env : Env) (arg : String)
    (h : (s2Of env).update_received = true) :
    run_workflow env arg =
      { trace := [Event.setCurrentTime TimeSrc.init,
          Event.emailQuery (updateQuery hardEmail),
          Event.setCurrentTime TimeSrc.timeCheck,
          Event.branchDecision false],
        final := some (s2Of env) } := by
  simp only [run_workflow]
  rw [h]
  simp [initialState]

theorem reminderBranch_s2_slack (env : Env)
    (hu : (s2Of env).update_received = false) (ht : env.checkNow.tod < ninePM) :
    reminderBranch (s2Of env) = RNode.slack := by
  unfold reminderBranch
  rw [hu, s2Of_current_time]
  simp [ht]

theorem reminderBranch_s2_email (env : Env)
    (ht : ¬ env.checkNow.tod < ninePM) :
    reminderBranch (s2Of env) = RNode.email := by
  unfold reminderBranch
  rw [s2Of_current_time]
  simp [ht]

theorem run_workflow_slack (env : Env) (arg : String)
    (hu : (s2Of env).update_received = false) (ht : env.checkNow.tod < ninePM) :
    run_workflow env arg =
      { trace := [Event.setCurrentTime TimeSrc.init,
          Event.emailQuery (updateQuery hardEmail),
          Event.setCurrentTime TimeSrc.timeCheck,
          Event.branchDecision true,
          Event.slackPost (slackText hardEmail)],
        final := some (send_slack_reminder env (s2Of env)) } := by
  simp only [run_workflow]
  rw [hu]
  simp only [reminderStage, reminderBranch_s2_slack env hu ht]
  simp [initialState, s2Of_user_email]

theorem run_workflow_email (env : Env) (arg : String)
    (hu : (s2Of env).update_received = false) (ht : ¬ env.checkNow.tod < ninePM) :
    run_workflow env arg =
      { trace := [Event.setCurrentTime TimeSrc.init,
          Event.emailQuery (updateQuery hardEmail),
          Event.setCurrentTime TimeSrc.timeCheck,
          Event.branchDecision true,
          Event.slackPost (slackText hardEmail),
          Event.emailQuery (reminderQuery hardEmail)],
        final := none } := by
  simp only [run_workflow]
  rw [hu]
  simp only [reminderStage, reminderBranch_s2_email env ht]
  simp [initialState, s2Of_user_email]

theorem applyStage_mono (env : Env) (n : NodeId) (s : WorkUpdateState) :
    (s.update_received = true → (applyStage env n s).update_received = true) ∧
    (s.reminder_sent = true → (applyStage env n s).reminder_sent = true) := by
  cases n <;>
    refine ⟨fun h => ?_, fun h => ?_⟩ <;>
    simp_all [applyStage, check_email_update, check_time, send_slack_reminder,
      send_email_reminder]

/-- C2: across any sequence of stage transitions, the OR-merged flags
`update_received` and `reminder_sent` are monotonic non-decreasing: once true
in the running state, no later stage can make them false. -/
theorem c2_flags_monotonic (env : Env) (ns : List NodeId) (s : WorkUpdateState) :
    (s.update_received = true → (runStages env ns s).update_received = true) ∧
    (s.reminder_sent = true → (runStages env ns s).reminder_sent = true) := by
  induction ns generalizing s with
  | nil => exact ⟨fun h => h, fun h => h⟩
  | cons n ns ih =>
    refine ⟨fun h => ?_, fun h => ?_⟩
    · exact (ih (applyStage env n s)).1 ((applyStage_mono env n s).1 h)
    · exact (ih (applyStage env n s)).2 ((applyStage_mono env n s).2 h)

/-- Witness for C2 at a concrete state with both flags true, run through all
four stages. -/
theorem c2_flags_monotonic_witness :
    sTrue.update_received = true ∧ sTrue.reminder_sent = true ∧
    (runStages env0 [NodeId.checkEmailUpdate, NodeId.checkTime,
      NodeId.slackReminder, NodeId.emailReminder] sTrue).update_received = true ∧
    (runStages env0 [NodeId.checkEmailUpdate, NodeId.checkTime,
      NodeId.slackReminder, NodeId.emailReminder] sTrue).reminder_sent = true :=
  ⟨rfl, rfl,
    (c2_flags_monotonic env0 [NodeId.checkEmailUpdate, NodeId.checkTime,
      NodeId.slackReminder, NodeId.emailReminder] sTrue).1 rfl,
    (c2_flags_monotonic env0 [NodeId.checkEmailUpdate, NodeId.checkTime,
      NodeId.slackReminder, NodeId.emailReminder] sTrue).2 rfl⟩

theorem state_eq_of_fields (s t : WorkUpdateState)
    (h1 : s.user_email = t.user_email)
    (h2 : s.update_received = t.update_received)
    (h3 : s.current_time = t.current_time)
    (h4 : s.reminder_sent = t.reminder_sent)
    (h5 : s.slack_message_sent = t.slack_message_sent) : s = t := by
  cases s; cases t; simp_all

theorem s2Of_eq_of_no_update (env : Env)
    (hu : (s2Of env).update_received = false) :
    s2Of env =
      { user_email := hardEmail,
        update_received := false,
        current_time := env.checkNow,
        reminder_sent := false,
        slack_message_sent := false } :=
  state_eq_of_fields _ _ (s2Of_user_email env) hu (s2Of_current_time env)
    (s2Of_reminder_sent env) (s2Of_slack_sent env)

theorem run_workflow_trace_cases (env : Env) (arg : String) :
    (run_workflow env arg).trace =
      [Event.setCurrentTime TimeSrc.init,
        Event.emailQuery (updateQuery hardEmail),
        Event.setCurrentTime TimeSrc.timeCheck,
        Event.branchDecision false] ∨
    (run_workflow env arg).trace =
      [Event.setCurrentTime TimeSrc.init,
        Event.emailQuery (updateQuery hardEmail),
        Event.setCurrentTime TimeSrc.timeCheck,
        Event.branchDecision true,
        Event.slackPost (slackText hardEmail)] ∨
    (run_workflow env arg).trace =
      [Event.setCurrentTime TimeSrc.init,
        Event.emailQuery (updateQuery hardEmail),
        Event.setCurrentTime TimeSrc.timeCheck,
        Event.branchDecision true,
        Event.slackPost (slackText hardEmail),
        Event.emailQuery (reminderQuery hardEmail)] := by
  cases hb : (s2Of env).update_received with
  | true => exact Or.inl (by rw [run_workflow_update_true env arg hb])
  | false =>
    by_cases ht : env.checkNow.tod < ninePM
    · exact Or.inr (Or.inl (by rw [run_workflow_slack env arg hb ht]))
    · exact Or.inr (Or.inr (by rw [run_workflow_email env arg hb ht]))

/-- C1: the claim fails on the code.  With no update found and the recorded
time 21:30, the reminder subgraph's unconditional `START ->
send_slack_reminder` edge (line 132) triggers the Slack node alongside the
conditionally selected email node, so the Notification Sender IS invoked, and
the conflicting full-state writes of the two nodes abort the run (no final
state) instead of completing the email-reminder path. -/
theorem c1_slack_invoked_after_nine :
    Event.slackPost (slackText hardEmail) ∈ (run_workflow envLate "a@x.com").trace ∧
    Event.emailQuery (reminderQuery hardEmail) ∈ (run_workflow envLate "a@x.com").trace ∧
    (run_workflow envLate "a@x.com").final = none := by decide

/-- C3: when the update check observes an update, the run reaches END right
after the time check: the final state exists and is the post-time-check
state, and the trace shows no collaborator call after the single update-check
query — neither a Slack post nor a further mail instruction. -/
theorem c3_update_true_skips_reminder (env : Env) (arg : String)
    (h : (check_email_update env (initialState env)).update_received = true) :
    (run_workflow env arg).final = some (s2Of env) ∧
    (run_workflow env arg).trace =
      [Event.setCurrentTime TimeSrc.init,
        Event.emailQuery (updateQuery hardEmail),
        Event.setCurrentTime TimeSrc.timeCheck,
        Event.branchDecision false] := by
  have h2 : (s2Of env).update_received = true := h
  rw [run_workflow_update_true env arg h2]
  exact ⟨rfl, rfl⟩

/-- Witness for C3 in the environment where the agent reports the update
marker. -/
theorem c3_update_true_skips_reminder_witness :
    (check_email_update envFound (initialState envFound)).update_received = true ∧
    ((run_workflow envFound "a@x.com").final = some (s2Of envFound) ∧
      (run_workflow envFound "a@x.com").trace =
        [Event.setCurrentTime TimeSrc.init,
          Event.emailQuery (updateQuery hardEmail),
          Event.setCurrentTime TimeSrc.timeCheck,
          Event.branchDecision false]) :=
  ⟨by decide, c3_update_true_skips_reminder envFound "a@x.com" (by decide)⟩

/-- C4: with no update found and the recorded time strictly before 21:00,
the run invokes only the Notification Sender with the fixed reminder text
(never the email-reminder instruction), and the final state carries the send
call's boolean result in both `slack_message_sent` and `reminder_sent`. -/
theorem c4_before_nine_slack_only (env : Env) (arg : String)
    (hu : (check_email_update env (initialState env)).update_received = false)
    (ht : env.checkNow.tod < ninePM) :
    (run_workflow env arg).trace =
      [Event.setCurrentTime TimeSrc.init,
        Event.emailQuery (updateQuery hardEmail),
        Event.setCurrentTime TimeSrc.timeCheck,
        Event.branchDecision true,
        Event.slackPost (slackText hardEmail)] ∧
    (run_workflow env arg).final = some
      { user_email := hardEmail,
        update_received := false,
        current_time := env.checkNow,
        reminder_sent := send_slack_message env (slackText hardEmail),
        slack_message_sent := send_slack_message env (slackText hardEmail) } := by
  have hu2 : (s2Of env).update_received = false := hu
  rw [run_workflow_slack env arg hu2 ht]
  refine ⟨rfl, ?_⟩
  rw [s2Of_eq_of_no_update env hu2]
  simp [send_slack_reminder]

/-- Witness for C4 in the environment with an empty agent response, 10:00
time check, and a Slack service that accepts the post. -/
theorem c4_before_nine_slack_only_witness :
    (check_email_update env0 (initialState env0)).update_received = false ∧
    env0.checkNow.tod < ninePM ∧
    ((run_workflow env0 "a@x.com").trace =
      [Event.setCurrentTime TimeSrc.init,
        Event.emailQuery (updateQuery hardEmail),
        Event.setCurrentTime TimeSrc.timeCheck,
        Event.branchDecision true,
        Event.slackPost (slackText hardEmail)] ∧
    (run_workflow env0 "a@x.com").final = some
      { user_email := hardEmail,
        update_received := false,
        current_time := env0.checkNow,
        reminder_sent := send_slack_message env0 (slackText hardEmail),
        slack_message_sent := send_slack_message env0 (slackText hardEmail) }) :=
  ⟨by decide, by decide,
    c4_before_nine_slack_only env0 "a@x.com" (by decide) (by decide)⟩

/-- C5: the Notification Sender's send never raises to its caller (it is a
total Bool-valued function in the embedding because the source catches
`SlackApiError`): a delivery-layer error yields `false`, and a false result
does not abort the workflow — the run still reaches END with
`slack_message_sent = false` and `reminder_sent = false`. -/
theorem c5_slack_error_recovered (env : Env) (arg : String) (err : String)
    (he : env.slack (slackText hardEmail) = SlackOutcome.apiError err) :
    send_slack_message env (slackText hardEmail) = false ∧
    ((check_email_update env (initialState env)).update_received = false →
      env.checkNow.tod < ninePM →
      (run_workflow env arg).final = some
        { user_email := hardEmail,
          update_received := false,
          current_time := env.checkNow,
          reminder_sent := false,
          slack_message_sent := false }) := by
  have hs : send_slack_message env (slackText hardEmail) = false := by
    unfold send_slack_message
    rw [he]
  refine ⟨hs, fun hu ht => ?_⟩
  have hu2 : (s2Of env).update_received = false := hu
  rw [run_workflow_slack env arg hu2 ht]
  rw [s2Of_eq_of_no_update env hu2]
  simp [send_slack_reminder, hs]

/-- Witness for C5 in the environment where every Slack post fails with a
`SlackApiError`. -/
theorem c5_slack_error_recovered_witness :
    envErr.slack (slackText hardEmail) = SlackOutcome.apiError "channel_not_found" ∧
    send_slack_message envErr (slackText hardEmail) = false ∧
    (check_email_update envErr (initialState envErr)).update_received = false ∧
    envErr.checkNow.tod < ninePM ∧
    (run_workflow envErr "a@x.com").final = some
      { user_email := hardEmail,
        update_received := false,
        current_time := envErr.checkNow,
        reminder_sent := false,
        slack_message_sent := false } :=
  ⟨by decide,
    (c5_slack_error_recovered envErr "a@x.com" "channel_not_found" (by decide)).1,
    by decide, by decide,
    (c5_slack_error_recovered envErr "a@x.com" "channel_not_found" (by decide)).2
      (by decide) (by decide)⟩

/-- C6 counterexample: in a concrete run the `current_time` writes recorded
in the trace are the initialization write of `run_workflow` (line 251)
followed by the time-check write — not a single time-check write, so the
timestamp is not written exactly once and the initialization step does set
it. -/
theorem c6_init_writes_current_time :
    (run_workflow env0 "a@x.com").trace.filter isTimeWrite =
      [Event.setCurrentTime TimeSrc.init, Event.setCurrentTime TimeSrc.timeCheck] ∧
    (run_workflow env0 "a@x.com").trace.filter isTimeWrite ≠
      [Event.setCurrentTime TimeSrc.timeCheck] := by decide

/-- C6 (amended): in every run `current_time` is written exactly twice —
once by `run_workflow`'s initial state and once by the Time-Check stage — the
time-check write happening before the branch decision that depends on it,
and no other stage writes it. -/
theorem c6_current_time_two_writes (env : Env) (arg : String) :
    ∃ b rest,
      (run_workflow env arg).trace =
        Event.setCurrentTime TimeSrc.init
          :: Event.emailQuery (updateQuery hardEmail)
          :: Event.setCurrentTime TimeSrc.timeCheck
          :: Event.branchDecision b :: rest ∧
      (run_workflow env arg).trace.filter isTimeWrite =
        [Event.setCurrentTime TimeSrc.init, Event.setCurrentTime TimeSrc.timeCheck] := by
  rcases run_workflow_trace_cases env arg with h | h | h <;> rw [h]
  · exact ⟨false, [], rfl, rfl⟩
  · exact ⟨true, [Event.slackPost (slackText hardEmail)], rfl, rfl⟩
  · exact ⟨true, [Event.slackPost (slackText hardEmail),
      Event.emailQuery (reminderQuery hardEmail)], rfl, rfl⟩

/-- C7: the update check sets `update_received` to the OR of its prior value
and the case-insensitive marker scan — true exactly when the prior value was
true or some returned message's lowercased content contains
`'work update found'` — and when some returned message carries the marker,
the run ends with `update_received = true`, `reminder_sent` still false, and
no reminder dispatched (no event after the branch decision). -/
theorem c7_update_marker_detection (env : Env) (arg : String) (s : WorkUpdateState) :
    ((check_email_update env s).update_received = true ↔
      (s.update_received = true ∨
        ∃ m ∈ process_query (env.emailStream (updateQuery s.user_email)),
          pyIn updateMarker (lowerStr m.content) = true)) ∧
    ((∃ m ∈ process_query (env.emailStream (updateQuery hardEmail)),
        pyIn updateMarker (lowerStr m.content) = true) →
      (run_workflow env arg).final = some (s2Of env) ∧
      (s2Of env).update_received = true ∧
      (s2Of env).reminder_sent = false ∧
      (run_workflow env arg).trace =
        [Event.setCurrentTime TimeSrc.init,
          Event.emailQuery (updateQuery hardEmail),
          Event.setCurrentTime TimeSrc.timeCheck,
          Event.branchDecision false]) := by
  constructor
  · simp [check_email_update, hasMarker, List.any_eq_true, Bool.or_eq_true]
  · intro hex
    have hm : hasMarker updateMarker
        (process_query (env.emailStream (updateQuery hardEmail))) = true := by
      simpa [hasMarker, List.any_eq_true] using hex
    have hu : (s2Of env).update_received = true := by
      show (check_email_update env (initialState env)).update_received = true
      simp [check_email_update, initialState, hm]
    rw [run_workflow_update_true env arg hu]
    exact ⟨rfl, hu, s2Of_reminder_sent env, rfl⟩

/-- Witness for C7 in the environment where the agent's response carries the
update marker in different letter case. -/
theorem c7_update_marker_detection_witness :
    (∃ m ∈ process_query (envFound.emailStream (updateQuery hardEmail)),
        pyIn updateMarker (lowerStr m.content) = true) ∧
    ((run_workflow envFound "a@x.com").final = some (s2Of envFound) ∧
      (s2Of envFound).update_received = true ∧
      (s2Of envFound).reminder_sent = false ∧
      (run_workflow envFound "a@x.com").trace =
        [Event.setCurrentTime TimeSrc.init,
          Event.emailQuery (updateQuery hardEmail),
          Event.setCurrentTime TimeSrc.timeCheck,
          Event.branchDecision false]) :=
  ⟨by decide,
    (c7_update_marker_detection envFound "a@x.com" (initialState envFound)).2
      (by decide)⟩

/-- C8: on the email-reminder path (prior `reminder_sent` false, as it is
whenever that stage runs), the stage sets `reminder_sent` true exactly when
at least one message returned for the send-reminder instruction contains the
`'email sent'` marker case-insensitively, and false when no returned message
matches. -/
theorem c8_email_sent_marker (env : Env) (s : WorkUpdateState)
    (h : s.reminder_sent = false) :
    ((send_email_reminder env s).reminder_sent = true ↔
      ∃ m ∈ process_query (env.emailStream (reminderQuery s.user_email)),
        pyIn sentMarker (lowerStr m.content) = true) := by
  simp [send_email_reminder, hasMarker, List.any_eq_true, h]

/-- Witness for C8 in the environment whose agent response carries the
`'email sent'` marker; the stage turns `reminder_sent` on. -/
theorem c8_email_sent_marker_witness :
    (initialState envSent).reminder_sent = false ∧
    ((send_email_reminder envSent (initialState envSent)).reminder_sent = true ↔
      ∃ m ∈ process_query
          (envSent.emailStream (reminderQuery (initialState envSent).user_email)),
        pyIn sentMarker (lowerStr m.content) = true) ∧
    (send_email_reminder envSent (initialState envSent)).reminder_sent = true :=
  ⟨rfl, c8_email_sent_marker envSent (initialState envSent) rfl, by decide⟩

theorem lastD_append (h : α) (t : List α) (m : α) : lastD h (t ++ [m]) = m := by
  induction t generalizing h with
  | nil => rfl
  | cons x xs ih => exact ih x

theorem snapLast_appendMsg (e : Snap) (m : Message) :
    snapLast (appendMsg e m) = m := by
  obtain ⟨h, t⟩ := e
  exact lastD_append h t m

theorem snapList_appendMsg (e : Snap) (m : Message) :
    snapList (appendMsg e m) = snapList e ++ [m] := by
  obtain ⟨h, t⟩ := e
  rfl

theorem process_query_streamOf (adds : List Message) (e : Snap) :
    process_query (streamOf e adds) = snapLast e :: adds := by
  induction adds generalizing e with
  | nil => rfl
  | cons m ms ih =>
    show snapLast e :: process_query (streamOf (appendMsg e m) ms) = _
    rw [ih (appendMsg e m), snapLast_appendMsg]

theorem lastD_streamOf (adds : List Message) (e h : Snap) :
    lastD h (streamOf e adds) = adds.foldl appendMsg e := by
  induction adds generalizing e h with
  | nil => rfl
  | cons m ms ih => exact ih (appendMsg e m) e

theorem snapList_foldl (adds : List Message) (e : Snap) :
    snapList (adds.foldl appendMsg e) = snapList e ++ adds := by
  induction adds generalizing e with
  | nil => simp
  | cons m ms ih =>
    show snapList (ms.foldl appendMsg (appendMsg e m)) = _
    rw [ih (appendMsg e m), snapList_appendMsg]
    simp

theorem agentProduced_streamOf (adds : List Message) (e : Snap) :
    agentProduced (streamOf e adds) = adds := by
  cases adds with
  | nil =>
    show (snapList (lastD e [])).drop (snapList e).length = []
    simp [lastD, List.drop_length]
  | cons m ms =>
    show (snapList (lastD e (streamOf (appendMsg e m) ms))).drop
        (snapList e).length = m :: ms
    rw [lastD_streamOf ms (appendMsg e m) e]
    rw [show ms.foldl appendMsg (appendMsg e m) = (m :: ms).foldl appendMsg e from rfl]
    rw [snapList_foldl]
    simp [List.drop_left]

/-- C9 (amended): `process_query` returns, for each streamed event, the last
message of that event's accumulated list — on a stream whose steps each
append exactly one message, this is the echoed input's last message followed
by all agent-produced messages in emission order. -/
theorem c9_process_query_last_per_event (e : Snap) (adds : List Message) :
    process_query (streamOf e adds) = snapLast e :: adds ∧
    agentProduced (streamOf e adds) = adds :=
  ⟨process_query_streamOf adds e, agentProduced_streamOf adds e⟩

/-- C9 counterexample: on a well-formed values stream whose last step appends
two messages at once, `process_query` includes the echoed input message and
drops one of the agent-produced messages, so it does not return the sequence
of messages the underlying agent produced. -/
theorem c9_process_query_drops_messages :
    wellFormedStream c9stream = true ∧
    agentProduced c9stream = [msgA, msgT1, msgT2] ∧
    process_query c9stream = [msgU, msgA, msgT2] ∧
    process_query c9stream ≠ agentProduced c9stream := by decide

/-- C10: the constructor argument is ignored — two runs with different
constructor arguments are identical, the initial state carries the hard-coded
address, the update-check instruction (trace position 1) references it, and
every instruction or reminder text any run can emit references only the
hard-coded address. -/
theorem c10_ctor_arg_ignored (env : Env) (a b : String) :
    run_workflow env a = run_workflow env b ∧
    (initialState env).user_email = hardEmail ∧
    (run_workflow env a).trace[1]? = some (Event.emailQuery (updateQuery hardEmail)) ∧
    (run_workflow env a).trace.all allowedEvent = true := by
  refine ⟨rfl, rfl, ?_, ?_⟩
  · rcases run_workflow_trace_cases env a with h | h | h <;> rw [h] <;> rfl
  · rcases run_workflow_trace_cases env a with h | h | h <;> rw [h] <;> decide

end EmailSlack
